import Mathlib

/-!
Verification of the carbon-compliance core of CarbonSenseAI
(`carbon_compliance.py`), shallowly embedded in Lean 4.

Python floats are modelled as exact rationals (`ℚ`); timestamps are
modelled as rationals measured in days; `pandas` dataframes as lists of
records.  Code that can raise (`ZeroDivisionError` at the performance-ratio
division) is modelled with `Option`.
-/

namespace CarbonCompliance

/-- Enum `ComplianceStatus` (carbon_compliance.py lines 14-19). -/
inductive ComplianceStatus where
  | excellent
  | good
  | needs_improvement
  | poor
  | critical
deriving DecidableEq, Repr

/-- Dataclass `IndustryBenchmark` (lines 21-28).  The `countries` list is
carried verbatim; it is never consulted by the scorer. -/
structure IndustryBenchmark where
  industry : String
  emissions_per_employee_kg : ℚ
  emissions_per_revenue_kg : ℚ
  reduction_target_percent : ℚ
  countries : List String
deriving DecidableEq, Repr

/-- One row of the emissions ledger, as consumed by `assess_compliance`:
the `date` column after `pd.to_datetime(..., errors="coerce")` (so `none`
models `NaT`, an unparseable date; timestamps are rationals in days),
the `scope` and `category` string columns, and `emissions_kgCO2e`. -/
structure EmissionRecord where
  date : Option ℚ
  scope : String
  category : String
  emissions_kgCO2e : ℚ
deriving DecidableEq, Repr

/-- The `company_info` dict as read by `assess_compliance`: the three keys
it consults, each optional because dict membership is tested in the code
(`company_info.get("industry", "services")`, `"employees" in company_info`,
`"revenue_million_inr" in company_info`). -/
structure CompanyInfo where
  industry : Option String
  employees : Option ℚ
  revenue_million_inr : Option ℚ
deriving DecidableEq, Repr

/-- The static benchmark table built by `_load_industry_benchmarks`
(lines 55-108), keyed by lowercase industry string. -/
def industry_benchmarks : String → Option IndustryBenchmark
  | "manufacturing" => some
      { industry := "Manufacturing"
        emissions_per_employee_kg := 8500
        emissions_per_revenue_kg := 37500
        reduction_target_percent := 5.0
        countries := ["India", "Indonesia", "Japan", "Global"] }
  | "technology" => some
      { industry := "Technology"
        emissions_per_employee_kg := 3200
        emissions_per_revenue_kg := 15000
        reduction_target_percent := 7.0
        countries := ["India", "Indonesia", "Japan", "Global"] }
  | "services" => some
      { industry := "Services"
        emissions_per_employee_kg := 2800
        emissions_per_revenue_kg := 12500
        reduction_target_percent := 6.0
        countries := ["India", "Indonesia", "Japan", "Global"] }
  | "retail" => some
      { industry := "Retail"
        emissions_per_employee_kg := 4200
        emissions_per_revenue_kg := 23350
        reduction_target_percent := 4.5
        countries := ["India", "Indonesia", "Japan", "Global"] }
  | "transportation" => some
      { industry := "Transportation"
        emissions_per_employee_kg := 12000
        emissions_per_revenue_kg := 62500
        reduction_target_percent := 3.5
        countries := ["India", "Indonesia", "Japan", "Global"] }
  | "agriculture" => some
      { industry := "Agriculture"
        emissions_per_employee_kg := 6800
        emissions_per_revenue_kg := 43350
        reduction_target_percent := 4.0
        countries := ["India", "Indonesia", "Japan", "Global"] }
  | "energy" => some
      { industry := "Energy"
        emissions_per_employee_kg := 15000
        emissions_per_revenue_kg := 75000
        reduction_target_percent := 8.0
        countries := ["India", "Indonesia", "Japan", "Global"] }
  | _ => none

/-- The `"services"` row of the table, the documented fallback. -/
def servicesBenchmark : IndustryBenchmark :=
  { industry := "Services"
    emissions_per_employee_kg := 2800
    emissions_per_revenue_kg := 12500
    reduction_target_percent := 6.0
    countries := ["India", "Indonesia", "Japan", "Global"] }

/-- One entry of the compliance-rule table of `_load_compliance_rules`
(lines 110-143). -/
structure ComplianceRule where
  score_range : ℚ × ℚ
  credit_rate : ℚ
  fine_rate : ℚ
  description : String
deriving DecidableEq, Repr

/-- The rule table of `_load_compliance_rules`, keyed (as in
`self.compliance_rules[status.value]`) by the status. -/
def compliance_rules : ComplianceStatus → ComplianceRule
  | .excellent =>
      { score_range := (90, 100), credit_rate := 4200, fine_rate := 0
        description := "Outstanding performance - eligible for carbon credits" }
  | .good =>
      { score_range := (75, 89), credit_rate := 2100, fine_rate := 0
        description := "Good performance - eligible for reduced carbon credits" }
  | .needs_improvement =>
      { score_range := (60, 74), credit_rate := 0, fine_rate := 0
        description := "Meets minimum standards - no penalty or credit" }
  | .poor =>
      { score_range := (40, 59), credit_rate := 0, fine_rate := 1260
        description := "Below standards - subject to carbon tax" }
  | .critical =>
      { score_range := (0, 39), credit_rate := 0, fine_rate := 2520
        description := "Critical non-compliance - subject to high carbon tax" }

/-- The sum `emissions_data["emissions_kgCO2e"].sum()` (line 174): the sum over all
ledger rows, valid dates or not. -/
def totalEmissionsKg (ledger : List EmissionRecord) : ℚ :=
  (ledger.map (·.emissions_kgCO2e)).sum

/-- Python `str.lower()`, modelled characterwise (the industry tags in
play are ASCII). -/
def pyLower (s : String) : String := ⟨s.data.map Char.toLower⟩

/-- The industry key resolution of lines 192-194:
`company_info.get("industry", "services").lower()`, then fallback to
`"services"` when the key is not in the table. -/
def industryKey (ci : CompanyInfo) : String :=
  let k := pyLower (ci.industry.getD "services")
  if (industry_benchmarks k).isSome then k else "services"

/-- The lookup `benchmark = self.industry_benchmarks[industry_key]` (line 196): total
because `industryKey` always lands on a table key. -/
def resolvedBenchmark (ci : CompanyInfo) : IndustryBenchmark :=
  (industry_benchmarks (industryKey ci)).getD servicesBenchmark

/-- Truth value of `"employees" in company_info and company_info["employees"] > 0`
(line 199). -/
def employeesPositive (ci : CompanyInfo) : Bool :=
  match ci.employees with
  | some e => decide (0 < e)
  | none => false

/-- Truth value of
`"revenue_million_inr" in company_info and company_info["revenue_million_inr"] > 0`
(line 205). -/
def revenuePositive (ci : CompanyInfo) : Bool :=
  match ci.revenue_million_inr with
  | some v => decide (0 < v)
  | none => false

/-- Benchmark resolution, lines 199-216: headcount basis first, then
revenue basis, then the synthetic headcount of 10. -/
def benchmarkEmissionsKg (ci : CompanyInfo) (b : IndustryBenchmark) (months : ℤ) : ℚ :=
  if employeesPositive ci then
    b.emissions_per_employee_kg * (ci.employees.getD 0) * ((months : ℚ) / 12)
  else if revenuePositive ci then
    b.emissions_per_revenue_kg * (ci.revenue_million_inr.getD 0) * ((months : ℚ) / 12)
  else
    b.emissions_per_employee_kg * 10 * ((months : ℚ) / 12)

/-- The status chosen by the conditional chain of lines 224-238, as a
function of the performance ratio. -/
def statusOfRatio (r : ℚ) : ComplianceStatus :=
  if r ≤ 0.8 then .excellent
  else if r ≤ 0.9 then .good
  else if r ≤ 1.1 then .needs_improvement
  else if r ≤ 1.25 then .poor
  else .critical

/-- Band formula of line 225: `90 + (10 * (0.8 - performance_ratio) / 0.8)`. -/
def excellentScore (r : ℚ) : ℚ := 90 + 10 * (0.8 - r) / 0.8

/-- Band formula of line 228: `75 + (15 * (0.9 - performance_ratio) / 0.1)`. -/
def goodScore (r : ℚ) : ℚ := 75 + 15 * (0.9 - r) / 0.1

/-- Band formula of line 231: `60 + (15 * (1.1 - performance_ratio) / 0.2)`. -/
def needsImprovementScore (r : ℚ) : ℚ := 60 + 15 * (1.1 - r) / 0.2

/-- Band formula of line 234: `40 + (20 * (1.25 - performance_ratio) / 0.15)`. -/
def poorScore (r : ℚ) : ℚ := 40 + 20 * (1.25 - r) / 0.15

/-- Band formula of line 237: `max(0, 40 * (1.5 - performance_ratio) / 0.25)`. -/
def criticalScore (r : ℚ) : ℚ := max 0 (40 * (1.5 - r) / 0.25)

/-- The raw score of the conditional chain of lines 224-238, before the
final clamp. -/
def rawScore (r : ℚ) : ℚ :=
  if r ≤ 0.8 then excellentScore r
  else if r ≤ 0.9 then goodScore r
  else if r ≤ 1.1 then needsImprovementScore r
  else if r ≤ 1.25 then poorScore r
  else criticalScore r

/-- The clamp `score = max(0, min(100, score))` (line 240). -/
def score (r : ℚ) : ℚ := max 0 (min 100 (rawScore r))

/-- Fine/credit computation of lines 242-252, returning
`(fine_amount, credit_amount)`. -/
def fineCredit (actualTonnes benchmarkTonnes : ℚ) (status : ComplianceStatus) : ℚ × ℚ :=
  let d := actualTonnes - benchmarkTonnes
  let rules := compliance_rules status
  if d < 0 then (0, |d| * rules.credit_rate)
  else (d * rules.fine_rate, 0)

/-- The generic recommendation block of `_generate_recommendations`
(lines 310-328), keyed by status tier.  The source strings carry emoji
prefixes; only their textual part is kept here. -/
def genericRecommendations (status : ComplianceStatus) : List String :=
  match status with
  | .excellent | .good =>
      ["Excellent performance! Consider sharing best practices with industry peers",
       "Explore additional renewable energy opportunities to maintain leadership",
       "Document your carbon reduction strategies for sustainability reporting"]
  | .needs_improvement =>
      ["Focus on energy efficiency improvements to reduce Scope 2 emissions",
       "Implement employee commuting programs to reduce Scope 3 emissions",
       "Set more aggressive reduction targets for next assessment period"]
  | .poor | .critical =>
      ["Immediate action required to avoid higher penalties",
       "Prioritize energy audit and efficiency upgrades",
       "Consider renewable energy procurement to reduce emissions",
       "Engage employees in carbon reduction initiatives"]

/-- The category-to-advice lookup of lines 331-339. -/
def categoryRecommendation : String → Option String
  | "Electricity" => some "Switch to renewable electricity or improve energy efficiency"
  | "Mobile Combustion" => some "Consider electric vehicles or optimize fleet usage"
  | "Business Travel" =>
      some "Implement virtual meeting policies and sustainable travel guidelines"
  | "Stationary Combustion" =>
      some "Upgrade to more efficient heating systems or alternative fuels"
  | _ => none

/-- The distinct category keys of the ledger, in first-occurrence order.
(`groupby("category")` yields its keys alphabetically and
`sort_values(ascending=False)` re-sorts them by value with an unstable
quicksort, so the order the source produces among categories with equal totals is
implementation-defined; the model fixes ties to first-occurrence order,
and no verified property depends on tie order.) -/
def categoryKeys (ledger : List EmissionRecord) : List String :=
  (ledger.map (·.category)).dedup

/-- The per-key sum `groupby("category")["emissions_kgCO2e"].sum()` for one category key. -/
def categoryTotal (ledger : List EmissionRecord) (c : String) : ℚ :=
  ((ledger.filter (·.category = c)).map (·.emissions_kgCO2e)).sum

/-- The selection `category_emissions.sort_values(ascending=False).head(3).index.tolist()`
(lines 305-307): the category keys in descending order of summed
kilograms, truncated to three. -/
def topCategories (ledger : List EmissionRecord) : List String :=
  ((categoryKeys ledger).insertionSort
    (fun a b => categoryTotal ledger b ≤ categoryTotal ledger a)).take 3

/-- Method `_generate_recommendations` (lines 291-341).  The whole analysis is
guarded by `if len(emissions_data) > 0`; an empty ledger yields the empty
list.  (The unused `scope_emissions` groupby of line 304 is omitted.) -/
def generate_recommendations (status : ComplianceStatus)
    (ledger : List EmissionRecord) : List String :=
  if ledger.isEmpty then []
  else
    (genericRecommendations status ++
      (topCategories ledger).filterMap categoryRecommendation).take 8

/-- Python `int()` applied to a float: truncation toward zero. -/
def truncateTowardZero (q : ℚ) : ℤ :=
  if 0 ≤ q then ⌊q⌋ else ⌈q⌉

/-- The offset `timedelta(days=int(assessment_period_months * 30.44))`
(lines 269, 272, 275), in days. -/
def reviewOffsetDays (months : ℤ) : ℤ :=
  truncateTowardZero ((months : ℚ) * 30.44)

/-- The parseable timestamps of the ledger
(`pd.to_datetime(..., errors="coerce")` followed by `dropna`). -/
def validDates (ledger : List EmissionRecord) : List ℚ :=
  ledger.filterMap (·.date)

/-- Next-review computation of lines 259-275.  `now` models
`datetime.now()`; timestamps are rationals in days. -/
def nextReviewDate (ledger : List EmissionRecord) (months : ℤ) (now : ℚ) : ℚ :=
  if ledger.isEmpty then now + (reviewOffsetDays months : ℚ)
  else
    match (validDates ledger).max? with
    | some d => d + (reviewOffsetDays months : ℚ)
    | none => now + (reviewOffsetDays months : ℚ)

/-- The descriptive date span shown in `period_description`
(lines 176-184): min and max of the valid timestamps when any exist.
The `strftime` formatting itself is not modelled. -/
def periodSpan (ledger : List EmissionRecord) : Option (ℚ × ℚ) :=
  match (validDates ledger).min?, (validDates ledger).max? with
  | some lo, some hi => some (lo, hi)
  | _, _ => none

/-- Dataclass `ComplianceResult` (lines 30-43).  `period_description` is
modelled by the date span it displays (`period_span`); `next_review_date`
is a rational timestamp in days. -/
structure ComplianceResult where
  status : ComplianceStatus
  score : ℚ
  fine_amount : ℚ
  credit_amount : ℚ
  emissions_actual : ℚ
  emissions_benchmark : ℚ
  performance_ratio : ℚ
  recommendations : List String
  next_review_date : ℚ
  period_span : Option (ℚ × ℚ)
  actual_period_months : ℤ
deriving DecidableEq, Repr

/-- Method `assess_compliance` (lines 145-289).  `now` models `datetime.now()`.
Returns `none` exactly where the source raises `ZeroDivisionError`: at the
`performance_ratio` division (line 221) when the benchmark is zero. -/
def assess_compliance (ledger : List EmissionRecord) (ci : CompanyInfo)
    (months : ℤ) (now : ℚ) : Option ComplianceResult :=
  let total_emissions_kg := totalEmissionsKg ledger
  let total_emissions_tonnes := total_emissions_kg / 1000
  let benchmark := resolvedBenchmark ci
  let benchmark_emissions_kg := benchmarkEmissionsKg ci benchmark months
  let benchmark_emissions_tonnes := benchmark_emissions_kg / 1000
  if benchmark_emissions_tonnes = 0 then none
  else
    let performance_ratio := total_emissions_tonnes / benchmark_emissions_tonnes
    let status := statusOfRatio performance_ratio
    let fc := fineCredit total_emissions_tonnes benchmark_emissions_tonnes status
    some
      { status := status
        score := score performance_ratio
        fine_amount := fc.1
        credit_amount := fc.2
        emissions_actual := total_emissions_tonnes
        emissions_benchmark := benchmark_emissions_tonnes
        performance_ratio := performance_ratio
        recommendations := generate_recommendations status ledger
        next_review_date := nextReviewDate ledger months now
        period_span := periodSpan ledger
        actual_period_months := months }

/-- Method `get_industry_benchmark_info` (lines 382-385):
`self.industry_benchmarks.get(industry.lower())`. -/
def get_industry_benchmark_info (industry : String) : Option IndustryBenchmark :=
  industry_benchmarks (pyLower industry)

/-- One scenario record returned by `simulate_improvement_scenarios`
(lines 421-428). -/
structure Scenario where
  reduction_percentage : ℚ
  new_emissions_tonnes : ℚ
  new_status : ComplianceStatus
  new_credit_amount : ℚ
  new_fine_amount : ℚ
  financial_improvement : ℚ
deriving DecidableEq, Repr

/-- The loop body of `simulate_improvement_scenarios` (lines 395-428) for
one reduction percentage. -/
def simulateOne (cur : ComplianceResult) (reduction_pct : ℚ) : Scenario :=
  let new_emissions := cur.emissions_actual * (1 - reduction_pct / 100)
  let new_ratio := new_emissions / cur.emissions_benchmark
  let sfc : ComplianceStatus × ℚ × ℚ :=
    if new_ratio ≤ 0.8 then
      (.excellent, |new_emissions - cur.emissions_benchmark| * 4200, 0)
    else if new_ratio ≤ 0.9 then
      (.good, |new_emissions - cur.emissions_benchmark| * 2100, 0)
    else if new_ratio ≤ 1.1 then
      (.needs_improvement, 0, 0)
    else if new_ratio ≤ 1.25 then
      (.poor, 0, (new_emissions - cur.emissions_benchmark) * 1260)
    else
      (.critical, 0, (new_emissions - cur.emissions_benchmark) * 2520)
  { reduction_percentage := reduction_pct
    new_emissions_tonnes := new_emissions
    new_status := sfc.1
    new_credit_amount := sfc.2.1
    new_fine_amount := sfc.2.2
    financial_improvement :=
      (cur.fine_amount - sfc.2.2) + (sfc.2.1 - cur.credit_amount) }

/-- Method `simulate_improvement_scenarios` (lines 387-430). -/
def simulate_improvement_scenarios (cur : ComplianceResult)
    (reduction_percentages : List ℚ) : List Scenario :=
  reduction_percentages.map (simulateOne cur)



/-- The example `company_info` of the demo block (lines 434-441) restricted
to the keys the scorer reads; also the profile of the worked scenario
of the spec (industry technology, 50 employees). -/
def techCompany : CompanyInfo :=
  { industry := some "technology", employees := some 50,
    revenue_million_inr := some 400 }

/-- A one-row ledger totalling 144,000 kg, the worked scenario of the spec. -/
def ledgerC8 : List EmissionRecord :=
  [{ date := some 0, scope := "Scope 2", category := "Electricity",
     emissions_kgCO2e := 144000 }]

/-- The benchmark (in tonnes, after the division of line 218) that
`assess_compliance` divides by at line 221. -/
def benchmarkTonnes (ci : CompanyInfo) (months : ℤ) : ℚ :=
  benchmarkEmissionsKg ci (resolvedBenchmark ci) months / 1000

/-- The record that `assess_compliance` returns on its successful path,
with every field spelled out. -/
def assessResult (ledger : List EmissionRecord) (ci : CompanyInfo)
    (months : ℤ) (now : ℚ) : ComplianceResult :=
  { status := statusOfRatio (totalEmissionsKg ledger / 1000 / benchmarkTonnes ci months)
    score := score (totalEmissionsKg ledger / 1000 / benchmarkTonnes ci months)
    fine_amount := (fineCredit (totalEmissionsKg ledger / 1000)
      (benchmarkTonnes ci months)
      (statusOfRatio (totalEmissionsKg ledger / 1000 / benchmarkTonnes ci months))).1
    credit_amount := (fineCredit (totalEmissionsKg ledger / 1000)
      (benchmarkTonnes ci months)
      (statusOfRatio (totalEmissionsKg ledger / 1000 / benchmarkTonnes ci months))).2
    emissions_actual := totalEmissionsKg ledger / 1000
    emissions_benchmark := benchmarkTonnes ci months
    performance_ratio := totalEmissionsKg ledger / 1000 / benchmarkTonnes ci months
    recommendations := generate_recommendations
      (statusOfRatio (totalEmissionsKg ledger / 1000 / benchmarkTonnes ci months)) ledger
    next_review_date := nextReviewDate ledger months now
    period_span := periodSpan ledger
    actual_period_months := months }

/-- A CRITICAL prior result at ratio 1.6: 256 tonnes against a 160 tonne
benchmark, fine 96 * 2520 = 241920, as in the reduction-simulation
scenario of the spec. -/
def criticalDemoResult : ComplianceResult :=
  { status := .critical, score := 0, fine_amount := 241920,
    credit_amount := 0, emissions_actual := 256,
    emissions_benchmark := 160, performance_ratio := 1.6,
    recommendations := [], next_review_date := 0, period_span := none,
    actual_period_months := 12 }

/-- C8: for industry "technology", headcount 50, a 12-month period and a
ledger totalling 144,000 kg, the assessment yields benchmark 160 tonnes,
ratio 0.90, status GOOD with score exactly 75, credit 33,600 and fine 0. -/
theorem C8_worked_scenario :
    (assess_compliance ledgerC8 techCompany 12 0).map
      (fun res => (res.status, res.score, res.fine_amount, res.credit_amount,
        res.performance_ratio, res.emissions_benchmark)) =
      some (.good, 75, 0, 33600, 0.9, 160) := by
  simp [assess_compliance, ledgerC8, techCompany, totalEmissionsKg,
    resolvedBenchmark, industryKey, pyLower, industry_benchmarks,
    benchmarkEmissionsKg, employeesPositive, statusOfRatio, score, rawScore,
    excellentScore, goodScore, fineCredit, compliance_rules]
  norm_num

/-- C10: an industry string whose lowercased form is not a key of the
benchmark table yields `none` from `get_industry_benchmark_info`, while the
lookup of `assess_compliance` silently resolves it to the "services"
benchmark. -/
theorem C10_unknown_industry_disagreement (s : String) (ci : CompanyInfo)
    (h : industry_benchmarks (pyLower s) = none) (hci : ci.industry = some s) :
    get_industry_benchmark_info s = none ∧
      resolvedBenchmark ci = servicesBenchmark := by
  refine ⟨by simp [get_industry_benchmark_info, h], ?_⟩
  simp only [resolvedBenchmark, industryKey, hci, Option.getD_some, h,
    Option.isSome_none, Bool.false_eq_true, if_false]
  simp [industry_benchmarks, servicesBenchmark]

/-- Witness for C10 at the concrete unknown industry tag "mining". -/
theorem C10_witness :
    get_industry_benchmark_info "mining" = none ∧
      resolvedBenchmark
        { industry := some "mining", employees := none,
          revenue_million_inr := none } = servicesBenchmark :=
  C10_unknown_industry_disagreement "mining" _ (by decide) rfl

/-- C3: headcount present and positive selects the per-employee formula
(regardless of revenue); otherwise positive revenue selects the per-revenue
formula; otherwise the synthetic headcount of 10 is used; an unknown
industry tag silently resolves to the "services" benchmark. -/
theorem C3_benchmark_resolution (ci : CompanyInfo) (b : IndustryBenchmark)
    (months : ℤ) :
    (∀ e, ci.employees = some e → 0 < e →
      benchmarkEmissionsKg ci b months =
        b.emissions_per_employee_kg * e * ((months : ℚ) / 12)) ∧
    (employeesPositive ci = false →
      ∀ v, ci.revenue_million_inr = some v → 0 < v →
        benchmarkEmissionsKg ci b months =
          b.emissions_per_revenue_kg * v * ((months : ℚ) / 12)) ∧
    (employeesPositive ci = false → revenuePositive ci = false →
      benchmarkEmissionsKg ci b months =
        b.emissions_per_employee_kg * 10 * ((months : ℚ) / 12)) ∧
    (∀ s, ci.industry = some s → industry_benchmarks (pyLower s) = none →
      resolvedBenchmark ci = servicesBenchmark) := by
  refine ⟨?_, ?_, ?_, ?_⟩
  · intro e he hpos
    have hemp : employeesPositive ci = true := by
      simp [employeesPositive, he, hpos]
    simp [benchmarkEmissionsKg, hemp, he]
  · intro hemp v hv hpos
    have hrev : revenuePositive ci = true := by
      simp [revenuePositive, hv, hpos]
    simp [benchmarkEmissionsKg, hemp, hrev, hv]
  · intro hemp hrev
    simp [benchmarkEmissionsKg, hemp, hrev]
  · intro s hs h
    simp only [resolvedBenchmark, industryKey, hs, Option.getD_some, h,
      Option.isSome_none, Bool.false_eq_true, if_false]
    simp [industry_benchmarks, servicesBenchmark]

/-- Witness for C3: the employee branch at technology/50, the revenue
branch at revenue 400, the default branch at an empty profile, and the
services fallback at "mining". -/
theorem C3_witness :
    benchmarkEmissionsKg techCompany
        ((industry_benchmarks "technology").getD servicesBenchmark) 12 = 160000 ∧
    benchmarkEmissionsKg
        { industry := some "technology", employees := none,
          revenue_million_inr := some 400 }
        ((industry_benchmarks "technology").getD servicesBenchmark) 12 = 6000000 ∧
    benchmarkEmissionsKg
        { industry := some "technology", employees := none,
          revenue_million_inr := none }
        ((industry_benchmarks "technology").getD servicesBenchmark) 12 = 32000 ∧
    resolvedBenchmark
      { industry := some "mining", employees := none,
        revenue_million_inr := none } = servicesBenchmark := by
  refine ⟨?_, ?_, ?_,
    ((C3_benchmark_resolution
        { industry := some "mining", employees := none,
          revenue_million_inr := none }
        servicesBenchmark 12).2.2.2 "mining" rfl (by decide))⟩
  · have h := (C3_benchmark_resolution techCompany
      ((industry_benchmarks "technology").getD servicesBenchmark) 12).1 50 rfl (by norm_num)
    rw [h]
    simp [industry_benchmarks]
    norm_num
  · have h := (C3_benchmark_resolution
      { industry := some "technology", employees := none,
        revenue_million_inr := some 400 }
      ((industry_benchmarks "technology").getD servicesBenchmark) 12).2.1 (by simp [employeesPositive])
      400 rfl (by norm_num)
    rw [h]
    simp [industry_benchmarks]
    norm_num
  · have h := (C3_benchmark_resolution
      { industry := some "technology", employees := none,
        revenue_million_inr := none }
      ((industry_benchmarks "technology").getD servicesBenchmark) 12).2.2.1
      (by simp [employeesPositive]) (by simp [revenuePositive])
    rw [h]
    simp [industry_benchmarks]
    norm_num

/-- Unfolding lemma: with a nonzero benchmark, `assess_compliance` returns
the fully determined result record. -/
theorem assess_compliance_eq_some (ledger : List EmissionRecord)
    (ci : CompanyInfo) (months : ℤ) (now : ℚ)
    (h : benchmarkTonnes ci months ≠ 0) :
    assess_compliance ledger ci months now =
      some (assessResult ledger ci months now) := by
  rw [assess_compliance]
  simp only [benchmarkTonnes] at h
  rw [if_neg h]
  rfl

/-- Unfolding lemma: with a zero benchmark, `assess_compliance` aborts
(the `ZeroDivisionError` of the source). -/
theorem assess_compliance_eq_none (ledger : List EmissionRecord)
    (ci : CompanyInfo) (months : ℤ) (now : ℚ)
    (h : benchmarkTonnes ci months = 0) :
    assess_compliance ledger ci months now = none := by
  rw [assess_compliance]
  simp only [benchmarkTonnes] at h
  rw [if_pos h]

/-- C6 (amended): `assess_compliance` performs no precondition validation.
A zero benchmark aborts with an unlabeled division-by-zero (modelled as
`none`); any nonzero benchmark — including the negative benchmarks that
zero-or-negative period months produce — silently yields a complete
result, with no typed precondition-violation error anywhere. -/
theorem C6_no_precondition_validation (ledger : List EmissionRecord)
    (ci : CompanyInfo) (months : ℤ) (now : ℚ) :
    (benchmarkTonnes ci months = 0 →
      assess_compliance ledger ci months now = none) ∧
    (benchmarkTonnes ci months ≠ 0 →
      (assess_compliance ledger ci months now).isSome = true) := by
  constructor
  · intro h
    exact assess_compliance_eq_none ledger ci months now h
  · intro h
    rw [assess_compliance_eq_some ledger ci months now h]
    rfl

/-- Witness for C6: months = 0 gives a zero benchmark and no result;
months = 12 gives a result. -/
theorem C6_witness :
    assess_compliance ledgerC8 techCompany 0 0 = none ∧
    (assess_compliance ledgerC8 techCompany 12 0).isSome = true := by
  refine ⟨(C6_no_precondition_validation ledgerC8 techCompany 0 0).1 ?_,
    (C6_no_precondition_validation ledgerC8 techCompany 12 0).2 ?_⟩ <;>
    simp [benchmarkTonnes, benchmarkEmissionsKg, techCompany,
      employeesPositive, resolvedBenchmark, industryKey, pyLower,
      industry_benchmarks]

/-- Counterexample to C6 as stated: with period months = −12 (a contract
violation) the assessment does not fail fast; it silently returns a full
result, rating the company EXCELLENT against a negative benchmark with
zero fine and zero credit. -/
theorem C6_counterexample :
    (assess_compliance ledgerC8 techCompany (-12) 0).map
      (fun res => (res.status, res.fine_amount, res.credit_amount,
        res.emissions_benchmark)) = some (.excellent, 0, 0, -160) := by
  simp [assess_compliance, ledgerC8, techCompany, totalEmissionsKg,
    resolvedBenchmark, industryKey, pyLower, industry_benchmarks,
    benchmarkEmissionsKg, employeesPositive, statusOfRatio, fineCredit,
    compliance_rules]
  norm_num

/-- Counterexample to C5 as stated: assessing an empty ledger yields an
empty recommendation list, not the three generic EXCELLENT-tier items
(the whole recommendation analysis is guarded by a non-empty-ledger
check). -/
theorem C5_counterexample :
    (assess_compliance [] techCompany 12 0).map
        (fun res => res.recommendations) = some [] ∧
      genericRecommendations .excellent ≠ [] := by
  constructor
  · simp [assess_compliance, techCompany, totalEmissionsKg,
      resolvedBenchmark, industryKey, pyLower, industry_benchmarks,
      benchmarkEmissionsKg, employeesPositive, generate_recommendations]
  · simp [genericRecommendations]

/-- C5 (amended): assessing an empty ledger against any positive benchmark
yields zero actual emissions, ratio 0, status EXCELLENT, score 100,
credit = benchmark_tonnes × 4200, fine 0, and an EMPTY recommendation
list (the generic tier items are skipped for an empty ledger). -/
theorem C5_empty_ledger (ci : CompanyInfo) (months : ℤ) (now : ℚ)
    (hb : 0 < benchmarkTonnes ci months) :
    ∃ res, assess_compliance [] ci months now = some res ∧
      res.emissions_actual = 0 ∧ res.performance_ratio = 0 ∧
      res.status = .excellent ∧ res.score = 100 ∧
      res.credit_amount = res.emissions_benchmark * 4200 ∧
      res.fine_amount = 0 ∧ res.recommendations = [] := by
  have h0 : totalEmissionsKg [] / 1000 = 0 := by norm_num [totalEmissionsKg]
  have hr : totalEmissionsKg [] / 1000 / benchmarkTonnes ci months = 0 := by
    rw [h0, zero_div]
  have hst : statusOfRatio (0 : ℚ) = .excellent := by norm_num [statusOfRatio]
  refine ⟨_, assess_compliance_eq_some [] ci months now (ne_of_gt hb),
    ?_, ?_, ?_, ?_, ?_, ?_, ?_⟩ <;> simp only [assessResult]
  · exact h0
  · exact hr
  · rw [hr, hst]
  · rw [hr]
    norm_num [score, rawScore, excellentScore]
  · rw [hr, h0, hst]
    simp only [fineCredit, compliance_rules]
    rw [if_pos (by linarith : (0 : ℚ) - benchmarkTonnes ci months < 0)]
    rw [zero_sub, abs_neg, abs_of_pos hb]
  · rw [hr, h0, hst]
    simp only [fineCredit, compliance_rules]
    rw [if_pos (by linarith : (0 : ℚ) - benchmarkTonnes ci months < 0)]
  · simp [generate_recommendations]

/-- Witness for C5 at the technology/50-employee profile. -/
theorem C5_witness :
    ∃ res, assess_compliance [] techCompany 12 0 = some res ∧
      res.emissions_actual = 0 ∧ res.performance_ratio = 0 ∧
      res.status = .excellent ∧ res.score = 100 ∧
      res.credit_amount = res.emissions_benchmark * 4200 ∧
      res.fine_amount = 0 ∧ res.recommendations = [] :=
  C5_empty_ledger techCompany 12 0 (by
    simp [benchmarkTonnes, benchmarkEmissionsKg, techCompany,
      employeesPositive, resolvedBenchmark, industryKey, pyLower,
      industry_benchmarks])

set_option maxHeartbeats 1600000 in
/-- The raw piecewise score is non-increasing in the ratio. -/
theorem rawScore_antitone (r1 r2 : ℚ) (h : r1 ≤ r2) :
    rawScore r2 ≤ rawScore r1 := by
  unfold rawScore excellentScore goodScore needsImprovementScore poorScore
    criticalScore
  split_ifs <;> (try norm_num only at *) <;>
    first
      | linarith
      | (apply max_le <;> linarith)
      | (refine max_le_max le_rfl ?_; linarith)

/-- The clamped score is non-increasing in the ratio. -/
theorem score_antitone (r1 r2 : ℚ) (h : r1 ≤ r2) : score r2 ≤ score r1 :=
  max_le_max le_rfl (min_le_min le_rfl (rawScore_antitone r1 r2 h))

/-- C2: the score is non-increasing over all non-negative ratios, takes the
values 90, 75, 60, 40 at the four band boundaries, agrees on each band with
the linear formula of that band, adjacent formulas agree at each shared
boundary (continuity from both sides), is clamped to [0, 100], and boundary
ties select the lower (better) status band. -/
theorem C2_score_curve :
    (∀ r1 r2 : ℚ, 0 ≤ r1 → r1 ≤ r2 → score r2 ≤ score r1) ∧
    (score 0.8 = 90 ∧ score 0.9 = 75 ∧ score 1.1 = 60 ∧ score 1.25 = 40) ∧
    (∀ r : ℚ, r ≤ 0.8 → rawScore r = excellentScore r) ∧
    (∀ r : ℚ, 0.8 < r → r ≤ 0.9 → rawScore r = goodScore r) ∧
    (∀ r : ℚ, 0.9 < r → r ≤ 1.1 → rawScore r = needsImprovementScore r) ∧
    (∀ r : ℚ, 1.1 < r → r ≤ 1.25 → rawScore r = poorScore r) ∧
    (∀ r : ℚ, 1.25 < r → rawScore r = criticalScore r) ∧
    (excellentScore 0.8 = 90 ∧ goodScore 0.8 = 90) ∧
    (goodScore 0.9 = 75 ∧ needsImprovementScore 0.9 = 75) ∧
    (needsImprovementScore 1.1 = 60 ∧ poorScore 1.1 = 60) ∧
    (poorScore 1.25 = 40 ∧ criticalScore 1.25 = 40) ∧
    (∀ r : ℚ, 0 ≤ score r ∧ score r ≤ 100) ∧
    (statusOfRatio 0.8 = .excellent ∧ statusOfRatio 0.9 = .good ∧
      statusOfRatio 1.1 = .needs_improvement ∧ statusOfRatio 1.25 = .poor) := by
  refine ⟨fun r1 r2 _ h => score_antitone r1 r2 h, ?_, ?_, ?_, ?_, ?_, ?_,
    ?_, ?_, ?_, ?_, ?_, ?_⟩
  · refine ⟨?_, ?_, ?_, ?_⟩ <;>
      norm_num [score, rawScore, excellentScore, goodScore,
        needsImprovementScore, poorScore]
  · intro r hr
    rw [rawScore, if_pos hr]
  · intro r hr1 hr2
    rw [rawScore, if_neg (by linarith), if_pos hr2]
  · intro r hr1 hr2
    rw [rawScore, if_neg (by linarith), if_neg (by linarith), if_pos hr2]
  · intro r hr1 hr2
    rw [rawScore, if_neg (by linarith), if_neg (by linarith),
      if_neg (by linarith), if_pos hr2]
  · intro r hr
    rw [rawScore, if_neg (by linarith), if_neg (by linarith),
      if_neg (by linarith), if_neg (by linarith)]
  · constructor <;> norm_num [excellentScore, goodScore]
  · constructor <;> norm_num [goodScore, needsImprovementScore]
  · constructor <;> norm_num [needsImprovementScore, poorScore]
  · constructor <;> norm_num [poorScore, criticalScore]
  · exact fun r => ⟨le_max_left _ _, max_le (by norm_num) (min_le_left _ _)⟩
  · refine ⟨?_, ?_, ?_, ?_⟩ <;> norm_num [statusOfRatio]

/-- Witness for C2 at the concrete ratios 0.5 and 0.85. -/
theorem C2_witness :
    score 0.85 ≤ score 0.5 ∧ rawScore 0.5 = excellentScore 0.5 :=
  ⟨C2_score_curve.1 0.5 0.85 (by norm_num) (by norm_num),
   C2_score_curve.2.2.1 0.5 (by norm_num)⟩

/-- Inversion: a successful assessment forces a nonzero benchmark and
determines the result record completely. -/
theorem assess_compliance_some_inv (ledger : List EmissionRecord)
    (ci : CompanyInfo) (months : ℤ) (now : ℚ) (res : ComplianceResult)
    (h : assess_compliance ledger ci months now = some res) :
    benchmarkTonnes ci months ≠ 0 ∧
      res = assessResult ledger ci months now := by
  by_cases hb : benchmarkTonnes ci months = 0
  · rw [assess_compliance_eq_none ledger ci months now hb] at h
    exact absurd h (by simp)
  · rw [assess_compliance_eq_some ledger ci months now hb] at h
    exact ⟨hb, (Option.some_inj.mp h).symm⟩

/-- C1 (amended): for a successful assessment with positive benchmark,
exactly one of fine and credit is strictly positive when the status is
outside the NEEDS_IMPROVEMENT band, and both are zero exactly when the
status is NEEDS_IMPROVEMENT (ratio in (0.9, 1.1]) — not only when the
excess is exactly zero. -/
theorem C1_fine_credit_trichotomy (ledger : List EmissionRecord)
    (ci : CompanyInfo) (months : ℤ) (now : ℚ) (res : ComplianceResult)
    (h : assess_compliance ledger ci months now = some res)
    (hb : 0 < res.emissions_benchmark) :
    (res.fine_amount = 0 ∧ res.credit_amount = 0 ↔
      res.status = .needs_improvement) ∧
    (((res.status = .excellent ∨ res.status = .good) ∧
        0 < res.credit_amount ∧ res.fine_amount = 0) ∨
      (res.status = .needs_improvement ∧
        res.credit_amount = 0 ∧ res.fine_amount = 0) ∨
      ((res.status = .poor ∨ res.status = .critical) ∧
        res.credit_amount = 0 ∧ 0 < res.fine_amount)) := by
  obtain ⟨hbne, hres⟩ := assess_compliance_some_inv ledger ci months now res h
  subst hres
  simp only [assessResult] at hb ⊢
  set t := totalEmissionsKg ledger / 1000 with ht
  set b := benchmarkTonnes ci months with hbdef
  set r := t / b with hrdef
  have htb : t = r * b := by
    rw [hrdef, div_mul_cancel₀ _ hbne]
  have key :
      ((statusOfRatio r = .excellent ∨ statusOfRatio r = .good) ∧
        0 < (fineCredit t b (statusOfRatio r)).2 ∧
        (fineCredit t b (statusOfRatio r)).1 = 0) ∨
      (statusOfRatio r = .needs_improvement ∧
        (fineCredit t b (statusOfRatio r)).2 = 0 ∧
        (fineCredit t b (statusOfRatio r)).1 = 0) ∨
      ((statusOfRatio r = .poor ∨ statusOfRatio r = .critical) ∧
        (fineCredit t b (statusOfRatio r)).2 = 0 ∧
        0 < (fineCredit t b (statusOfRatio r)).1) := by
    rcases le_or_lt r 0.9 with h1 | h1
    · -- credit bands: EXCELLENT or GOOD, deficit strictly negative
      left
      have hd : t - b < 0 := by
        have he : t - b = (r - 1) * b := by rw [htb]; ring
        rw [he]
        exact mul_neg_of_neg_of_pos (by norm_num only at h1 ⊢; linarith) hb
      have hstat : statusOfRatio r = .excellent ∨ statusOfRatio r = .good := by
        rw [statusOfRatio]
        rcases le_or_lt r 0.8 with h2 | h2
        · rw [if_pos h2]; exact Or.inl rfl
        · rw [if_neg (not_le.mpr h2), if_pos h1]; exact Or.inr rfl
      have hrate : 0 < (compliance_rules (statusOfRatio r)).credit_rate := by
        rcases hstat with hs | hs <;> rw [hs] <;> norm_num [compliance_rules]
      refine ⟨hstat, ?_, ?_⟩
      · simp only [fineCredit]
        rw [if_pos hd]
        exact mul_pos (abs_pos.mpr (ne_of_lt hd)) hrate
      · simp only [fineCredit]
        rw [if_pos hd]
    · rcases le_or_lt r 1.1 with h2 | h2
      · -- NEEDS_IMPROVEMENT: both rates are zero
        right; left
        have hstat : statusOfRatio r = .needs_improvement := by
          rw [statusOfRatio, if_neg (by norm_num only at h1 ⊢; linarith),
            if_neg (not_le.mpr h1), if_pos h2]
        refine ⟨hstat, ?_, ?_⟩ <;>
          simp only [fineCredit, hstat, compliance_rules] <;>
          rcases lt_or_ge (t - b) 0 with hd | hd <;>
          simp [hd]
      · -- fine bands: POOR or CRITICAL, excess strictly positive
        right; right
        have hd : 0 < t - b := by
          have he : t - b = (r - 1) * b := by rw [htb]; ring
          rw [he]
          exact mul_pos (by norm_num only at h2 ⊢; linarith) hb
        have hstat : statusOfRatio r = .poor ∨ statusOfRatio r = .critical := by
          rw [statusOfRatio, if_neg (by norm_num only at h2 ⊢; linarith),
            if_neg (by norm_num only at h2 ⊢; linarith), if_neg (not_le.mpr h2)]
          rcases le_or_lt r 1.25 with h3 | h3
          · rw [if_pos h3]; exact Or.inl rfl
          · rw [if_neg (not_le.mpr h3)]; exact Or.inr rfl
        have hrate : 0 < (compliance_rules (statusOfRatio r)).fine_rate := by
          rcases hstat with hs | hs <;> rw [hs] <;> norm_num [compliance_rules]
        refine ⟨hstat, ?_, ?_⟩
        · simp only [fineCredit]
          rw [if_neg (not_lt.mpr (le_of_lt hd))]
        · simp only [fineCredit]
          rw [if_neg (not_lt.mpr (le_of_lt hd))]
          exact mul_pos hd hrate
  refine ⟨?_, key⟩
  constructor
  · intro hz
    rcases key with ⟨_, hc, _⟩ | ⟨hs, _, _⟩ | ⟨_, _, hf⟩
    · exact absurd hz.2 (ne_of_gt hc)
    · exact hs
    · exact absurd hz.1 (ne_of_gt hf)
  · intro hs
    rcases key with ⟨hst, _, _⟩ | ⟨_, hc, hf⟩ | ⟨hst, _, _⟩
    · rcases hst with hst | hst <;> rw [hst] at hs <;> exact absurd hs (by simp)
    · exact ⟨hf, hc⟩
    · rcases hst with hst | hst <;> rw [hst] at hs <;> exact absurd hs (by simp)

/-- Counterexample to C1 as stated: at ratio 0.95 (actual 152 t against
benchmark 160 t) the status is NEEDS_IMPROVEMENT, both fine and credit are
zero, yet the excess is −8 t, not 0. -/
theorem C1_counterexample :
    (assess_compliance
        [{ date := some 0, scope := "Scope 2", category := "Electricity",
           emissions_kgCO2e := 152000 }] techCompany 12 0).map
      (fun res => (res.status, res.fine_amount, res.credit_amount,
        res.emissions_actual - res.emissions_benchmark)) =
      some (.needs_improvement, 0, 0, -8) := by
  simp [assess_compliance, techCompany, totalEmissionsKg, resolvedBenchmark,
    industryKey, pyLower, industry_benchmarks, benchmarkEmissionsKg,
    employeesPositive, statusOfRatio, fineCredit, compliance_rules]
  norm_num

/-- Witness for C1 at the technology/50-employee scenario of the demo
block. -/
theorem C1_witness :
    ∃ res, assess_compliance ledgerC8 techCompany 12 0 = some res ∧
      ((res.fine_amount = 0 ∧ res.credit_amount = 0 ↔
        res.status = .needs_improvement) ∧
      (((res.status = .excellent ∨ res.status = .good) ∧
          0 < res.credit_amount ∧ res.fine_amount = 0) ∨
        (res.status = .needs_improvement ∧
          res.credit_amount = 0 ∧ res.fine_amount = 0) ∨
        ((res.status = .poor ∨ res.status = .critical) ∧
          res.credit_amount = 0 ∧ 0 < res.fine_amount))) := by
  have hbne : benchmarkTonnes techCompany 12 ≠ 0 := by
    simp [benchmarkTonnes, benchmarkEmissionsKg, techCompany,
      employeesPositive, resolvedBenchmark, industryKey, pyLower,
      industry_benchmarks]
  have hsome := assess_compliance_eq_some ledgerC8 techCompany 12 0 hbne
  refine ⟨_, hsome, C1_fine_credit_trichotomy ledgerC8 techCompany 12 0 _ hsome ?_⟩
  simp [assessResult, benchmarkTonnes, benchmarkEmissionsKg, techCompany,
    employeesPositive, resolvedBenchmark, industryKey, pyLower,
    industry_benchmarks]

/-- C4 (amended): for a non-empty ledger the recommendation list is the
status-tier generic block — 3 items for the {EXCELLENT,GOOD} and
{NEEDS_IMPROVEMENT} tiers but 4 items for the {POOR,CRITICAL} tier —
followed by up to one lookup item per top-3 emitting category in
descending-emission order, truncated at 8; it is never empty and never
longer than 8. -/
theorem C4_recommendations (status : ComplianceStatus)
    (ledger : List EmissionRecord) (h : ledger ≠ []) :
    generate_recommendations status ledger =
      (genericRecommendations status ++
        (topCategories ledger).filterMap categoryRecommendation).take 8 ∧
    (genericRecommendations status).length =
      (if status = .poor ∨ status = .critical then 4 else 3) ∧
    (generate_recommendations status ledger).length ≤ 8 ∧
    generate_recommendations status ledger ≠ [] ∧
    (topCategories ledger).length ≤ 3 ∧
    List.Sorted (fun a b => categoryTotal ledger b ≤ categoryTotal ledger a)
      (topCategories ledger) := by
  obtain ⟨a, as, rfl⟩ := List.exists_cons_of_ne_nil h
  have hunfold : generate_recommendations status (a :: as) =
      (genericRecommendations status ++
        (topCategories (a :: as)).filterMap categoryRecommendation).take 8 := by
    rw [generate_recommendations]
    rfl
  refine ⟨hunfold, by cases status <;> simp [genericRecommendations], ?_, ?_, ?_, ?_⟩
  · rw [hunfold, List.length_take]
    exact min_le_left _ _
  · rw [hunfold]
    have hg : genericRecommendations status ≠ [] := by
      cases status <;> simp [genericRecommendations]
    intro hcontra
    rcases List.take_eq_nil_iff.mp hcontra with h8 | happ
    · exact absurd h8 (by norm_num)
    · exact hg (List.append_eq_nil.mp happ).1
  · rw [topCategories, List.length_take]
    exact min_le_left _ _
  · haveI : IsTotal String
        (fun x y => categoryTotal (a :: as) y ≤ categoryTotal (a :: as) x) :=
      ⟨fun x y => le_total (categoryTotal (a :: as) y) (categoryTotal (a :: as) x)⟩
    haveI : IsTrans String
        (fun x y => categoryTotal (a :: as) y ≤ categoryTotal (a :: as) x) :=
      ⟨fun _ _ _ hxy hyz => le_trans hyz hxy⟩
    exact List.Pairwise.sublist (List.take_sublist 3 _)
      (List.sorted_insertionSort _ _)

/-- Counterexample to C4 as stated: a POOR assessment over a ledger whose
only category has no advice entry yields 4 recommendations — the
POOR/CRITICAL generic block has four items, not three. -/
theorem C4_counterexample :
    (assess_compliance
        [{ date := some 0, scope := "Scope 1", category := "Factory",
           emissions_kgCO2e := 192000 }] techCompany 12 0).map
      (fun res => (res.status, res.recommendations.length)) =
      some (.poor, 4) ∧
    (topCategories
        [{ date := some 0, scope := "Scope 1", category := "Factory",
           emissions_kgCO2e := 192000 }]).filterMap categoryRecommendation = [] := by
  constructor
  · simp [assess_compliance, techCompany, totalEmissionsKg, resolvedBenchmark,
      industryKey, pyLower, industry_benchmarks, benchmarkEmissionsKg,
      employeesPositive, statusOfRatio, generate_recommendations,
      genericRecommendations, topCategories, categoryKeys,
      List.insertionSort, categoryRecommendation]
    norm_num
  · simp [topCategories, categoryKeys, List.insertionSort,
      categoryRecommendation]

/-- Witness for C4 at the worked-scenario ledger and the GOOD status. -/
theorem C4_witness :
    generate_recommendations .good ledgerC8 =
      (genericRecommendations .good ++
        (topCategories ledgerC8).filterMap categoryRecommendation).take 8 ∧
    (generate_recommendations .good ledgerC8).length ≤ 8 ∧
    generate_recommendations .good ledgerC8 ≠ [] := by
  have h := C4_recommendations .good ledgerC8 (by simp [ledgerC8])
  exact ⟨h.1, h.2.2.1, h.2.2.2.1⟩

/-- One simulated scenario agrees with the scoring band table and monetary
conversion of `assess_compliance` applied afresh to the scaled emissions. -/
theorem simulateOne_refines (cur : ComplianceResult) (pct : ℚ)
    (hb : 0 < cur.emissions_benchmark) :
    (simulateOne cur pct).new_emissions_tonnes =
      cur.emissions_actual * (1 - pct / 100) ∧
    (simulateOne cur pct).new_status =
      statusOfRatio
        (cur.emissions_actual * (1 - pct / 100) / cur.emissions_benchmark) ∧
    (simulateOne cur pct).new_fine_amount =
      (fineCredit (cur.emissions_actual * (1 - pct / 100))
        cur.emissions_benchmark
        (statusOfRatio (cur.emissions_actual * (1 - pct / 100) /
          cur.emissions_benchmark))).1 ∧
    (simulateOne cur pct).new_credit_amount =
      (fineCredit (cur.emissions_actual * (1 - pct / 100))
        cur.emissions_benchmark
        (statusOfRatio (cur.emissions_actual * (1 - pct / 100) /
          cur.emissions_benchmark))).2 ∧
    (simulateOne cur pct).financial_improvement =
      (cur.fine_amount - (simulateOne cur pct).new_fine_amount) +
        ((simulateOne cur pct).new_credit_amount - cur.credit_amount) := by
  set t := cur.emissions_actual * (1 - pct / 100) with htdef
  set b := cur.emissions_benchmark with hbdef
  set r := t / b with hrdef
  have hbne : b ≠ 0 := ne_of_gt hb
  have htb : t = r * b := by rw [hrdef, div_mul_cancel₀ _ hbne]
  refine ⟨rfl, ?_⟩
  have main :
      (simulateOne cur pct).new_status = statusOfRatio r ∧
      (simulateOne cur pct).new_fine_amount =
        (fineCredit t b (statusOfRatio r)).1 ∧
      (simulateOne cur pct).new_credit_amount =
        (fineCredit t b (statusOfRatio r)).2 := by
    rcases le_or_lt r 0.8 with h1 | h1
    · have hst : statusOfRatio r = .excellent := by rw [statusOfRatio, if_pos h1]
      have hd : t - b < 0 := by
        have he : t - b = (r - 1) * b := by rw [htb]; ring
        rw [he]
        exact mul_neg_of_neg_of_pos (by norm_num only at h1 ⊢; linarith) hb
      simp only [simulateOne, hst, fineCredit, compliance_rules]
      rw [if_pos h1, if_pos hd]
      exact ⟨rfl, rfl, rfl⟩
    · rcases le_or_lt r 0.9 with h2 | h2
      · have hst : statusOfRatio r = .good := by
          rw [statusOfRatio, if_neg (not_le.mpr h1), if_pos h2]
        have hd : t - b < 0 := by
          have he : t - b = (r - 1) * b := by rw [htb]; ring
          rw [he]
          exact mul_neg_of_neg_of_pos (by norm_num only at h2 ⊢; linarith) hb
        simp only [simulateOne, hst, fineCredit, compliance_rules]
        rw [if_neg (not_le.mpr h1), if_pos h2, if_pos hd]
        exact ⟨rfl, rfl, rfl⟩
      · rcases le_or_lt r 1.1 with h3 | h3
        · have hst : statusOfRatio r = .needs_improvement := by
            rw [statusOfRatio, if_neg (by norm_num only at h2 ⊢; linarith),
              if_neg (not_le.mpr h2), if_pos h3]
          simp only [simulateOne, hst, fineCredit, compliance_rules]
          rw [if_neg (by norm_num only at h2 ⊢; linarith : ¬ r ≤ 0.8),
            if_neg (not_le.mpr h2), if_pos h3]
          rcases lt_or_ge (t - b) 0 with hd | hd
          · rw [if_pos hd]
            exact ⟨rfl, by norm_num, by norm_num⟩
          · rw [if_neg (not_lt.mpr hd)]
            exact ⟨rfl, by norm_num, by norm_num⟩
        · rcases le_or_lt r 1.25 with h4 | h4
          · have hst : statusOfRatio r = .poor := by
              rw [statusOfRatio, if_neg (by norm_num only at h3 ⊢; linarith),
                if_neg (by norm_num only at h3 ⊢; linarith),
                if_neg (not_le.mpr h3), if_pos h4]
            have hd : 0 < t - b := by
              have he : t - b = (r - 1) * b := by rw [htb]; ring
              rw [he]
              exact mul_pos (by norm_num only at h3 ⊢; linarith) hb
            simp only [simulateOne, hst, fineCredit, compliance_rules]
            rw [if_neg (by norm_num only at h3 ⊢; linarith : ¬ r ≤ 0.8),
              if_neg (by norm_num only at h3 ⊢; linarith : ¬ r ≤ 0.9),
              if_neg (not_le.mpr h3), if_pos h4,
              if_neg (not_lt.mpr (le_of_lt hd))]
            exact ⟨rfl, rfl, rfl⟩
          · have hst : statusOfRatio r = .critical := by
              rw [statusOfRatio, if_neg (by norm_num only at h4 ⊢; linarith),
                if_neg (by norm_num only at h4 ⊢; linarith),
                if_neg (by norm_num only at h4 ⊢; linarith),
                if_neg (not_le.mpr h4)]
            have hd : 0 < t - b := by
              have he : t - b = (r - 1) * b := by rw [htb]; ring
              rw [he]
              exact mul_pos (by norm_num only at h4 ⊢; linarith) hb
            simp only [simulateOne, hst, fineCredit, compliance_rules]
            rw [if_neg (by norm_num only at h4 ⊢; linarith : ¬ r ≤ 0.8),
              if_neg (by norm_num only at h4 ⊢; linarith : ¬ r ≤ 0.9),
              if_neg (by norm_num only at h4 ⊢; linarith : ¬ r ≤ 1.1),
              if_neg (not_le.mpr h4),
              if_neg (not_lt.mpr (le_of_lt hd))]
            exact ⟨rfl, rfl, rfl⟩
  exact ⟨main.1, main.2.1, main.2.2, rfl⟩

/-- C7: every scenario produced by `simulate_improvement_scenarios` carries
the same status, fine and credit as a fresh run of the band table and
monetary conversion of `assess_compliance` on the scaled emissions figure
against the same benchmark, and its financial improvement is
(old fine − new fine) + (new credit − old credit). -/
theorem C7_simulation_refines_assessment (cur : ComplianceResult)
    (pcts : List ℚ) (hb : 0 < cur.emissions_benchmark) :
    ∀ s ∈ simulate_improvement_scenarios cur pcts,
      s.new_emissions_tonnes =
        cur.emissions_actual * (1 - s.reduction_percentage / 100) ∧
      s.new_status =
        statusOfRatio (s.new_emissions_tonnes / cur.emissions_benchmark) ∧
      s.new_fine_amount =
        (fineCredit s.new_emissions_tonnes cur.emissions_benchmark
          (statusOfRatio (s.new_emissions_tonnes /
            cur.emissions_benchmark))).1 ∧
      s.new_credit_amount =
        (fineCredit s.new_emissions_tonnes cur.emissions_benchmark
          (statusOfRatio (s.new_emissions_tonnes /
            cur.emissions_benchmark))).2 ∧
      s.financial_improvement = (cur.fine_amount - s.new_fine_amount) +
        (s.new_credit_amount - cur.credit_amount) := by
  intro s hs
  rw [simulate_improvement_scenarios, List.mem_map] at hs
  obtain ⟨pct, _, rfl⟩ := hs
  have hpct : (simulateOne cur pct).reduction_percentage = pct := rfl
  have h := simulateOne_refines cur pct hb
  rw [hpct, h.1]
  exact ⟨rfl, h.2⟩

/-- Witness for C7: the CRITICAL prior result at ratio 1.6, simulating a
25% cut. -/
theorem C7_witness :
    (simulateOne criticalDemoResult 25).new_emissions_tonnes =
      criticalDemoResult.emissions_actual *
        (1 - (simulateOne criticalDemoResult 25).reduction_percentage / 100) ∧
    (simulateOne criticalDemoResult 25).new_status =
      statusOfRatio ((simulateOne criticalDemoResult 25).new_emissions_tonnes /
        criticalDemoResult.emissions_benchmark) ∧
    (simulateOne criticalDemoResult 25).new_fine_amount =
      (fineCredit (simulateOne criticalDemoResult 25).new_emissions_tonnes
        criticalDemoResult.emissions_benchmark
        (statusOfRatio ((simulateOne criticalDemoResult 25).new_emissions_tonnes /
          criticalDemoResult.emissions_benchmark))).1 ∧
    (simulateOne criticalDemoResult 25).new_credit_amount =
      (fineCredit (simulateOne criticalDemoResult 25).new_emissions_tonnes
        criticalDemoResult.emissions_benchmark
        (statusOfRatio ((simulateOne criticalDemoResult 25).new_emissions_tonnes /
          criticalDemoResult.emissions_benchmark))).2 ∧
    (simulateOne criticalDemoResult 25).financial_improvement =
      (criticalDemoResult.fine_amount -
        (simulateOne criticalDemoResult 25).new_fine_amount) +
      ((simulateOne criticalDemoResult 25).new_credit_amount -
        criticalDemoResult.credit_amount) :=
  C7_simulation_refines_assessment criticalDemoResult [25]
    (by norm_num [criticalDemoResult]) (simulateOne criticalDemoResult 25)
    (by simp [simulate_improvement_scenarios])

/-- The emissions sum splits into the valid-date rows and the
unparseable-date rows: no row is excluded from it. -/
theorem totalEmissionsKg_partition (ledger : List EmissionRecord) :
    totalEmissionsKg ledger =
      totalEmissionsKg (ledger.filter (fun e => e.date.isSome)) +
        totalEmissionsKg (ledger.filter (fun e => e.date.isNone)) := by
  induction ledger with
  | nil => simp [totalEmissionsKg]
  | cons a as ih =>
    cases hd : a.date <;>
      simp [totalEmissionsKg, List.filter_cons, hd] at ih ⊢ <;>
      linarith [ih]

/-- C9 (amended): the next review date is the latest valid ledger
timestamp — or the evaluation instant when none exists — plus
`int(period_months * 30.44)` whole days (the source truncates the float
day count with `int()`), and the emissions sum covers every ledger row
regardless of date validity. -/
theorem C9_next_review (ledger : List EmissionRecord) (ci : CompanyInfo)
    (months : ℤ) (now : ℚ) (res : ComplianceResult)
    (h : assess_compliance ledger ci months now = some res) :
    (∀ d, (validDates ledger).max? = some d →
      res.next_review_date = d + (reviewOffsetDays months : ℚ)) ∧
    ((validDates ledger).max? = none →
      res.next_review_date = now + (reviewOffsetDays months : ℚ)) ∧
    res.emissions_actual * 1000 =
      totalEmissionsKg (ledger.filter (fun e => e.date.isSome)) +
        totalEmissionsKg (ledger.filter (fun e => e.date.isNone)) := by
  obtain ⟨hbne, rfl⟩ := assess_compliance_some_inv ledger ci months now res h
  refine ⟨?_, ?_, ?_⟩
  · intro d hd
    simp only [assessResult, nextReviewDate]
    cases ledger with
    | nil => simp [validDates] at hd
    | cons a as =>
      simp only [List.isEmpty_cons, if_false, Bool.false_eq_true]
      rw [hd]
  · intro hd
    simp only [assessResult, nextReviewDate]
    cases ledger with
    | nil => rfl
    | cons a as =>
      simp only [List.isEmpty_cons, if_false, Bool.false_eq_true]
      rw [hd]
  · simp only [assessResult]
    rw [div_mul_cancel₀ _ (by norm_num : (1000 : ℚ) ≠ 0)]
    exact totalEmissionsKg_partition ledger

/-- Counterexample to C9 as stated: with a 12-month period the code adds
`int(12 * 30.44) = 365` whole days, while the formula of the claim,
`12 * 30.44 = 365.28` days differs. -/
theorem C9_counterexample :
    (assess_compliance ledgerC8 techCompany 12 0).map
        (fun res => res.next_review_date) = some 365 ∧
      (0 : ℚ) + 12 * 30.44 ≠ 365 := by
  constructor
  · simp [assess_compliance, ledgerC8, techCompany, totalEmissionsKg,
      resolvedBenchmark, industryKey, pyLower, industry_benchmarks,
      benchmarkEmissionsKg, employeesPositive, nextReviewDate, validDates,
      reviewOffsetDays, truncateTowardZero, List.max?]
    norm_num
  · norm_num

/-- Witness for C9: the worked-scenario ledger anchored at its latest
timestamp, and an empty ledger anchored at the evaluation instant. -/
theorem C9_witness :
    (assessResult ledgerC8 techCompany 12 0).next_review_date =
      0 + (reviewOffsetDays 12 : ℚ) ∧
    (assessResult [] techCompany 12 7).next_review_date =
      7 + (reviewOffsetDays 12 : ℚ) := by
  have hbne : benchmarkTonnes techCompany 12 ≠ 0 := by
    simp [benchmarkTonnes, benchmarkEmissionsKg, techCompany,
      employeesPositive, resolvedBenchmark, industryKey, pyLower,
      industry_benchmarks]
  have h1 := C9_next_review ledgerC8 techCompany 12 0 _
    (assess_compliance_eq_some ledgerC8 techCompany 12 0 hbne)
  have h2 := C9_next_review [] techCompany 12 7 _
    (assess_compliance_eq_some [] techCompany 12 7 hbne)
  exact ⟨h1.1 0 rfl, h2.2.1 rfl⟩

end CarbonCompliance
